import Mathlib

/-!
# Verification of `TensorStreamDataset` (cn24, `src/util/TensorStreamDataset.cpp`)

A shallow embedding of the tensor-stream dataset component of the CN24
semantic-segmentation software, together with proofs of the documented
properties of its construction protocol, sample accessors and error-weight
cache.

Modelling conventions:

* A `Tensor` is its four shape fields (sample count, map/channel count,
  height, width) plus its payload, stored as one list of cells per sample.
* A binary record stream is modelled as the list of tensors its records
  deserialize to, in stream order; end-of-data is the end of the list, and
  a zero-element record is the in-stream sentinel, exactly as the counting
  loops of the constructor treat it.
* The `FATAL` terminations of the constructor and its unchecked reads of
  `data_[0]` / `labels_[0]` (which fall outside the allocation whenever the
  pool length `tensors_` is zero) are made explicit as an `Except` error
  result: `oddTraining` and `oddTesting` for the two parity checks,
  `outOfBounds` when the first-tensor metadata reads would index a
  zero-length pool.
* `Tensor::CopySample` lives outside the source in scope here; it is modelled
  from the spec (§4.4, §6) as the primitive that copies one source sample
  into one destination slot, failing on shape mismatch or an out-of-range
  sample index and leaving the destination unchanged in that case.
-/

/-- The scalar cell type of a tensor (`datum` in the source). -/
abbrev datum := Int

/-- A tensor: shape plus payload, one flat cell list per sample
(row-major inside a sample, matching `data_ptr(x, y)` = cell `y * width + x`
of the first map). -/
structure Tensor where
  samples : Nat
  maps : Nat
  height : Nat
  width : Nat
  data : List (List datum)
deriving DecidableEq

instance : Inhabited Tensor := ⟨⟨0, 0, 0, 0, []⟩⟩

/-- Element count of a tensor, the product of its dimensions
(`Tensor::elements()` in the collaborator interface); the counting loops
stop on a record that reports zero elements. -/
def Tensor.elements (t : Tensor) : Nat :=
  t.samples * t.maps * t.width * t.height

/-- Modelled from the spec: `Tensor::CopySample` is the external sample-copy
primitive (§4.4, §6), missing from the sources in scope. It copies the given
sample of the source tensor into the destination tensor at the given sample
slot; it fails, leaving the destination unchanged, exactly when the
per-sample shapes (maps, width, height) differ or either sample index is out
of range. Returns the success flag and the (possibly updated) destination. -/
def Tensor.CopySample (source : Tensor) (source_sample : Nat)
    (dest : Tensor) (dest_sample : Nat) : Bool × Tensor :=
  if source_sample < source.samples ∧ dest_sample < dest.samples ∧
      source.maps = dest.maps ∧ source.width = dest.width ∧
      source.height = dest.height then
    (true, { dest with data := dest.data.set dest_sample (source.data.getD source_sample []) })
  else
    (false, dest)

/-- The record-counting loop (lines 28-36 / 45-53): deserialize records from
the start of the stream, stopping at end-of-data or at the first record with
zero elements (the sentinel is not counted). -/
def countTensors (stream : List Tensor) : Nat :=
  (stream.takeWhile (fun t => t.elements != 0)).length

/-- The per-pixel weight rows written by the error-cache loop nest
(lines 91-95): row `y` holds `error_function x y` for `x = 0, ..., w - 1`,
and rows are laid out in increasing `y`. `errorCacheRows w f h` is the cache
payload after the outer loop has processed `y = 0, ..., h - 1`. -/
def errorCacheRows (w : Nat) (f : Nat → Nat → datum) : Nat → List datum
  | 0 => []
  | y + 1 => errorCacheRows w f y ++ (List.range w).map (fun x => f x y)

/-- The error-weight cache built at lines 90-95: one sample, one map, the
spatial extent of the reference (first data) tensor, every cell `(x, y)` set
to `error_function x y`. -/
def buildErrorCache (d0 : Tensor) (error_function : Nat → Nat → datum) : Tensor :=
  { samples := 1, maps := 1, height := d0.height, width := d0.width,
    data := [errorCacheRows d0.width error_function d0.height] }

/-- Cell `(x, y)` of the first map of the first sample of a tensor, as
`data_ptr(x, y)` addresses it: flat offset `y * width + x`. -/
def Tensor.cellAt (t : Tensor) (x y : Nat) : datum :=
  (t.data.getD 0 []).getD (y * t.width + x) 0

/-- The materialization pass (lines 74-84): after the rewind, the training
replay fills pool slots `[0, ctr / 2)` with alternating (data, label) records
of the training stream, and the testing replay fills the remaining slots
`[ctr / 2, tensors_)` the same way from the testing stream. Returns the
parallel `data_` and `labels_` arrays. -/
def materialize (training_stream testing_stream : List Tensor)
    (ctr cte : Nat) : List Tensor × List Tensor :=
  (((List.range (ctr / 2)).map fun t => training_stream.getD (2 * t) default) ++
     ((List.range (cte / 2)).map fun t => testing_stream.getD (2 * t) default),
   ((List.range (ctr / 2)).map fun t => training_stream.getD (2 * t + 1) default) ++
     ((List.range (cte / 2)).map fun t => testing_stream.getD (2 * t + 1) default))

/-- Why construction fails: the two `FATAL` parity checks (lines 41-43 and
57-59), and the out-of-bounds first-tensor reads (lines 86-95) that the
source performs unchecked whenever the pool is empty. -/
inductive ConstructError where
  | oddTraining
  | oddTesting
  | outOfBounds
deriving DecidableEq

/-- The corpus state after a completed construction: the fields of the
`TensorStreamDataset` class that the component reads back. -/
structure TensorStreamDataset where
  classes_ : Nat
  class_names_ : List String
  tensor_count_training_ : Nat
  tensor_count_testing_ : Nat
  tensors_ : Nat
  data_ : List Tensor
  labels_ : List Tensor
  input_maps_ : Nat
  label_maps_ : Nat
  error_cache : Tensor
deriving DecidableEq

/-- The success path of the constructor (lines 61-97), reached once both
parity checks pass and the pool is nonempty: counts recorded, pool
materialized, first-tensor metadata read, error cache built. -/
def buildDataset (training_stream testing_stream : List Tensor)
    (classes : Nat) (class_names : List String)
    (error_function : Nat → Nat → datum) : TensorStreamDataset :=
  let ctr := countTensors training_stream
  let cte := countTensors testing_stream
  let pool := materialize training_stream testing_stream ctr cte
  { classes_ := classes, class_names_ := class_names,
    tensor_count_training_ := ctr, tensor_count_testing_ := cte,
    tensors_ := (cte + ctr) / 2,
    data_ := pool.1, labels_ := pool.2,
    input_maps_ := (pool.1.getD 0 default).maps,
    label_maps_ := (pool.2.getD 0 default).maps,
    error_cache := buildErrorCache (pool.1.getD 0 default) error_function }

/-- The constructor `TensorStreamDataset::TensorStreamDataset`
(lines 21-98): count both streams, `FATAL` on an odd count (modelled as an
error result), compute the pool length, rewind and materialize, then read
`data_[0]` / `labels_[0]` for the metadata and the error cache — reads that
fall outside the zero-length allocation when `tensors_ = 0`, modelled as the
`outOfBounds` error. -/
def TensorStreamDataset.construct (training_stream testing_stream : List Tensor)
    (classes : Nat) (class_names : List String)
    (error_function : Nat → Nat → datum) :
    Except ConstructError TensorStreamDataset :=
  let ctr := countTensors training_stream
  if ctr % 2 = 1 then .error .oddTraining
  else
    let cte := countTensors testing_stream
    if cte % 2 = 1 then .error .oddTesting
    else if (cte + ctr) / 2 = 0 then .error .outOfBounds
    else .ok (buildDataset training_stream testing_stream classes class_names error_function)

/-- `GetTrainingSamples` (lines 128-130). -/
def TensorStreamDataset.GetTrainingSamples (d : TensorStreamDataset) : Nat :=
  d.tensor_count_training_ / 2

/-- `GetTestingSamples` (lines 132-134). -/
def TensorStreamDataset.GetTestingSamples (d : TensorStreamDataset) : Nat :=
  d.tensor_count_testing_ / 2

/-- `SupportsTesting` (lines 136-138). -/
def TensorStreamDataset.SupportsTesting (d : TensorStreamDataset) : Bool :=
  d.tensor_count_testing_ > 0

/-- The full observable outcome of one accessor call: the returned flag, the
three caller-owned destination tensors as the call leaves them, and the
corpus state as the call leaves it. -/
structure SampleResult where
  success : Bool
  data_tensor : Tensor
  label_tensor : Tensor
  weight_tensor : Tensor
  dataset : TensorStreamDataset
deriving DecidableEq

/-- `GetTrainingSample` (lines 140-148): under the range guard
`index < tensor_count_training_ / 2`, copy sample 0 of `data_[index]`,
`labels_[index]` and the shared `error_cache` into the three destinations at
slot `sample`, and-ing the three results; otherwise return `false` touching
nothing. The source method writes no member, so the returned corpus state is
the receiver. -/
def TensorStreamDataset.GetTrainingSample (d : TensorStreamDataset)
    (data_tensor label_tensor weight_tensor : Tensor)
    (sample index : Nat) : SampleResult :=
  if index < d.tensor_count_training_ / 2 then
    let r1 := Tensor.CopySample (d.data_.getD index default) 0 data_tensor sample
    let r2 := Tensor.CopySample (d.labels_.getD index default) 0 label_tensor sample
    let r3 := Tensor.CopySample d.error_cache 0 weight_tensor sample
    { success := r1.1 && r2.1 && r3.1,
      data_tensor := r1.2, label_tensor := r2.2, weight_tensor := r3.2,
      dataset := d }
  else
    { success := false, data_tensor := data_tensor, label_tensor := label_tensor,
      weight_tensor := weight_tensor, dataset := d }

/-- `GetTestingSample` (lines 150-159): identical to `GetTrainingSample` but
guarded by `index < tensor_count_testing_ / 2` and reading the pool at
`test_index = tensor_count_training_ / 2 + index`. -/
def TensorStreamDataset.GetTestingSample (d : TensorStreamDataset)
    (data_tensor label_tensor weight_tensor : Tensor)
    (sample index : Nat) : SampleResult :=
  if index < d.tensor_count_testing_ / 2 then
    let test_index := d.tensor_count_training_ / 2 + index
    let r1 := Tensor.CopySample (d.data_.getD test_index default) 0 data_tensor sample
    let r2 := Tensor.CopySample (d.labels_.getD test_index default) 0 label_tensor sample
    let r3 := Tensor.CopySample d.error_cache 0 weight_tensor sample
    { success := r1.1 && r2.1 && r3.1,
      data_tensor := r1.2, label_tensor := r2.2, weight_tensor := r3.2,
      dataset := d }
  else
    { success := false, data_tensor := data_tensor, label_tensor := label_tensor,
      weight_tensor := weight_tensor, dataset := d }

/-- `DefaultLocalizedErrorFunction` (lines 18-20): constant weight 1. -/
def DefaultLocalizedErrorFunction (x y : Nat) : datum := 1

/-- Which localized-error function `CreateFromConfiguration` has selected:
the two function pointers it can assign are `DefaultLocalizedErrorFunction`
and `KITTIData::LocalizedError`. -/
inductive LocalizedErrorFunctionTag where
  | defaultFn
  | kittiFn
deriving DecidableEq

/-- The handling of one `localized_error <name>` directive (lines 184-194):
`name.compare("kitti") == 0` selects the KITTI function; otherwise
`name.compare("default")` — nonzero exactly when the name is NOT "default" —
selects the default function; a literal "default" matches neither branch and
leaves the current selection unchanged. -/
def applyLocalizedErrorDirective (error_function : LocalizedErrorFunctionTag)
    (error_function_name : String) : LocalizedErrorFunctionTag :=
  if error_function_name = "kitti" then .kittiFn
  else if ¬ (error_function_name = "default") then .defaultFn
  else error_function

/-- The error function `CreateFromConfiguration` (lines 161-208) ends up
passing to the constructor, as a function of the names given to the
`localized_error` directives of the configuration file, in order. The
line-level parsing (`StartsWithIdentifier`, `ParseStringIfPossible`) is
outside the sources in scope and is abstracted per spec §6 to the directive
name list; the selection starts at the default (line 164) and each directive
updates it per `applyLocalizedErrorDirective`. -/
def configuredErrorFunction (directive_names : List String) : LocalizedErrorFunctionTag :=
  directive_names.foldl applyLocalizedErrorDirective .defaultFn

/-- The destination tensor is untouched outside one sample slot: all four
shape fields are unchanged and every sample payload other than slot `s` is
unchanged. This is the frame a single `CopySample` into slot `s` guarantees
the caller. -/
def unchangedOutsideSlot (orig result : Tensor) (s : Nat) : Prop :=
  result.samples = orig.samples ∧ result.maps = orig.maps ∧
  result.height = orig.height ∧ result.width = orig.width ∧
  ∀ j, j ≠ s → result.data.getD j [] = orig.data.getD j []

/-- A concrete training data record: 1 sample, 3 maps, 1 x 2 spatial extent. -/
def trainData : Tensor := ⟨1, 3, 1, 2, [[1, 2, 3, 4, 5, 6]]⟩

/-- A concrete training label record: 1 sample, 2 maps, 1 x 2 spatial extent. -/
def trainLabel : Tensor := ⟨1, 2, 1, 2, [[7, 8, 9, 10]]⟩

/-- A concrete testing data record, same shape as `trainData`. -/
def testData : Tensor := ⟨1, 3, 1, 2, [[11, 12, 13, 14, 15, 16]]⟩

/-- A concrete testing label record, same shape as `trainLabel`. -/
def testLabel : Tensor := ⟨1, 2, 1, 2, [[17, 18, 19, 20]]⟩

/-- The corpus built from one training pair and one testing pair. -/
def dsPair : TensorStreamDataset :=
  buildDataset [trainData, trainLabel] [testData, testLabel] 2 ["road", "background"]
    DefaultLocalizedErrorFunction

/-- The corpus built from one training pair and an empty testing stream. -/
def dsTrainOnly : TensorStreamDataset :=
  buildDataset [trainData, trainLabel] [] 2 ["road", "background"]
    DefaultLocalizedErrorFunction

/-- A two-slot destination buffer matching the per-sample shape of the data records. -/
def destData : Tensor := ⟨2, 3, 1, 2, [[0, 0, 0, 0, 0, 0], [0, 0, 0, 0, 0, 0]]⟩

/-- A two-slot destination buffer matching the per-sample shape of the label records. -/
def destLabel : Tensor := ⟨2, 2, 1, 2, [[0, 0, 0, 0], [0, 0, 0, 0]]⟩

/-- A two-slot destination buffer matching the per-sample shape of the error cache. -/
def destWeight : Tensor := ⟨2, 1, 1, 2, [[0, 0], [0, 0]]⟩

/-- A destination buffer whose per-sample shape matches no record of the
example corpus: copies into it fail. -/
def destMismatched : Tensor := ⟨1, 1, 1, 1, [[0]]⟩
lemma rangeMap_getD {α : Type} (n : Nat) (g : Nat → α) (i : Nat) (hi : i < n) (dflt : α) :
    ((List.range n).map g).getD i dflt = g i := by
  rw [List.getD_eq_getElem _ _ (by simpa using hi)]
  simp

lemma errorCacheRows_length (w : Nat) (f : Nat → Nat → datum) (h : Nat) :
    (errorCacheRows w f h).length = h * w := by
  induction h with
  | zero => simp [errorCacheRows]
  | succ n ih => simp [errorCacheRows, ih, Nat.succ_mul]

lemma errorCacheRows_getD (w : Nat) (f : Nat → Nat → datum) (h y x : Nat)
    (hy : y < h) (hx : x < w) :
    (errorCacheRows w f h).getD (y * w + x) 0 = f x y := by
  induction h with
  | zero => exact absurd hy (Nat.not_lt_zero y)
  | succ n ih =>
    rcases Nat.lt_succ_iff_lt_or_eq.mp hy with h1 | rfl
    · rw [errorCacheRows, List.getD_append]
      · exact ih h1
      · rw [errorCacheRows_length]
        have h2 : y * w + x < (y + 1) * w := by rw [Nat.succ_mul]; omega
        exact Nat.lt_of_lt_of_le h2 (Nat.mul_le_mul_right w h1)
    · rw [errorCacheRows, List.getD_append_right _ _ _ _ (by rw [errorCacheRows_length]; omega)]
      rw [errorCacheRows_length, Nat.add_sub_cancel_left]
      exact rangeMap_getD w (fun x => f x y) x hx 0

lemma materialize_fst_length (tr te : List Tensor) (ctr cte : Nat) :
    (materialize tr te ctr cte).1.length = ctr / 2 + cte / 2 := by
  simp [materialize]

lemma materialize_snd_length (tr te : List Tensor) (ctr cte : Nat) :
    (materialize tr te ctr cte).2.length = ctr / 2 + cte / 2 := by
  simp [materialize]

lemma materialize_data_train (tr te : List Tensor) (ctr cte : Nat) (i : Nat)
    (hi : i < ctr / 2) :
    (materialize tr te ctr cte).1.getD i default = tr.getD (2 * i) default := by
  simp only [materialize]
  rw [List.getD_append _ _ _ _ (by simpa using hi)]
  exact rangeMap_getD _ _ i hi default

lemma materialize_labels_train (tr te : List Tensor) (ctr cte : Nat) (i : Nat)
    (hi : i < ctr / 2) :
    (materialize tr te ctr cte).2.getD i default = tr.getD (2 * i + 1) default := by
  simp only [materialize]
  rw [List.getD_append _ _ _ _ (by simpa using hi)]
  exact rangeMap_getD _ _ i hi default

lemma materialize_data_test (tr te : List Tensor) (ctr cte : Nat) (i : Nat)
    (hi : i < cte / 2) :
    (materialize tr te ctr cte).1.getD (ctr / 2 + i) default = te.getD (2 * i) default := by
  simp only [materialize]
  rw [List.getD_append_right _ _ _ _ (by simp)]
  simp only [List.length_map, List.length_range, Nat.add_sub_cancel_left]
  exact rangeMap_getD _ _ i hi default

lemma materialize_labels_test (tr te : List Tensor) (ctr cte : Nat) (i : Nat)
    (hi : i < cte / 2) :
    (materialize tr te ctr cte).2.getD (ctr / 2 + i) default = te.getD (2 * i + 1) default := by
  simp only [materialize]
  rw [List.getD_append_right _ _ _ _ (by simp)]
  simp only [List.length_map, List.length_range, Nat.add_sub_cancel_left]
  exact rangeMap_getD _ _ i hi default

lemma CopySample_frame (src : Tensor) (ss : Nat) (dest : Tensor) (ds : Nat) :
    unchangedOutsideSlot dest (Tensor.CopySample src ss dest ds).2 ds := by
  unfold Tensor.CopySample unchangedOutsideSlot
  split
  · refine ⟨rfl, rfl, rfl, rfl, fun j hj => ?_⟩
    show (dest.data.set ds _).getD j [] = dest.data.getD j []
    rw [List.getD_eq_getElem?_getD, List.getElem?_set_ne (fun h => hj h.symm)]
    exact (List.getD_eq_getElem?_getD _ _ _).symm
  · exact ⟨rfl, rfl, rfl, rfl, fun j hj => rfl⟩

lemma construct_ok (tr te : List Tensor) (c : Nat) (ns : List String)
    (ef : Nat → Nat → datum) (d : TensorStreamDataset)
    (h : TensorStreamDataset.construct tr te c ns ef = .ok d) :
    countTensors tr % 2 = 0 ∧ countTensors te % 2 = 0 ∧
      (countTensors te + countTensors tr) / 2 ≠ 0 ∧
      d = buildDataset tr te c ns ef := by
  unfold TensorStreamDataset.construct at h
  dsimp only at h
  split at h
  · exact absurd h (by simp)
  · split at h
    · exact absurd h (by simp)
    · split at h
      · exact absurd h (by simp)
      · rename_i h1 h2 h3
        refine ⟨Nat.mod_two_ne_one.mp h1, Nat.mod_two_ne_one.mp h2, h3, ?_⟩
        exact (Except.ok.injEq _ _ |>.mp h).symm

/-- Claim C1, counterexample: the claim as stated fails at the concrete input
of two empty streams. Both streams contain an even number (2 times 0) of valid
records, yet construction does not complete: the constructor reads `data_[0]`
out of the bounds of the zero-length pool, so `construct` returns no corpus. -/
theorem claim_C1_counterexample :
    countTensors ([] : List Tensor) = 2 * 0 ∧
    ∀ d, TensorStreamDataset.construct [] [] 0 [] DefaultLocalizedErrorFunction ≠
      Except.ok d := by
  refine ⟨rfl, fun d h => ?_⟩
  have h0 : TensorStreamDataset.construct [] [] 0 [] DefaultLocalizedErrorFunction =
      Except.error ConstructError.outOfBounds := rfl
  rw [h0] at h
  exact Except.noConfusion h

/-- Claim C1 (amended): for every training or testing record stream, if the
record count is odd, construction fails fatally (the odd-training or
odd-testing error; construction does not complete); if both streams contain an
even number of valid records, 2p and 2q, and the combined pool is nonempty,
construction completes and the streams contribute exactly p and q paired
samples to the pool. -/
theorem claim_C1 (tr te : List Tensor) (c : Nat) (ns : List String)
    (ef : Nat → Nat → datum) :
    (countTensors tr % 2 = 1 →
      TensorStreamDataset.construct tr te c ns ef = .error .oddTraining) ∧
    (countTensors tr % 2 = 0 → countTensors te % 2 = 1 →
      TensorStreamDataset.construct tr te c ns ef = .error .oddTesting) ∧
    (∀ p q : Nat, countTensors tr = 2 * p → countTensors te = 2 * q → 0 < p + q →
      TensorStreamDataset.construct tr te c ns ef = .ok (buildDataset tr te c ns ef) ∧
      (buildDataset tr te c ns ef).GetTrainingSamples = p ∧
      (buildDataset tr te c ns ef).GetTestingSamples = q ∧
      (buildDataset tr te c ns ef).data_.length = p + q ∧
      (buildDataset tr te c ns ef).labels_.length = p + q) := by
  refine ⟨fun h1 => ?_, fun h1 h2 => ?_, fun p q hp hq hpq => ?_⟩
  · unfold TensorStreamDataset.construct
    dsimp only
    rw [if_pos h1]
  · unfold TensorStreamDataset.construct
    dsimp only
    rw [if_neg (by omega), if_pos h2]
  · have h1 : ¬ countTensors tr % 2 = 1 := by omega
    have h2 : ¬ countTensors te % 2 = 1 := by omega
    have h3 : ¬ (countTensors te + countTensors tr) / 2 = 0 := by omega
    refine ⟨?_, ?_, ?_, ?_, ?_⟩
    · unfold TensorStreamDataset.construct
      dsimp only
      rw [if_neg h1, if_neg h2, if_neg h3]
    · simp only [buildDataset, TensorStreamDataset.GetTrainingSamples]
      omega
    · simp only [buildDataset, TensorStreamDataset.GetTestingSamples]
      omega
    · simp only [buildDataset]
      rw [materialize_fst_length]
      omega
    · simp only [buildDataset]
      rw [materialize_snd_length]
      omega

/-- Claim C1, witness: the theorem applied at concrete inputs — a one-record
(odd) training stream makes construction fail, and one training pair plus one
testing pair construct a corpus with one sample in each partition. -/
theorem claim_C1_witness :
    countTensors [trainData] % 2 = 1 ∧
    TensorStreamDataset.construct [trainData] [] 2 [] DefaultLocalizedErrorFunction =
      .error .oddTraining ∧
    countTensors [trainData, trainLabel] = 2 * 1 ∧
    countTensors [testData, testLabel] = 2 * 1 ∧ (0 : Nat) < 1 + 1 ∧
    (TensorStreamDataset.construct [trainData, trainLabel] [testData, testLabel] 2
        ["road", "background"] DefaultLocalizedErrorFunction = .ok dsPair ∧
      dsPair.GetTrainingSamples = 1 ∧ dsPair.GetTestingSamples = 1 ∧
      dsPair.data_.length = 1 + 1 ∧ dsPair.labels_.length = 1 + 1) := by
  refine ⟨by decide,
    (claim_C1 [trainData] [] 2 [] DefaultLocalizedErrorFunction).1 (by decide),
    by decide, by decide, by decide, ?_⟩
  exact (claim_C1 [trainData, trainLabel] [testData, testLabel] 2 ["road", "background"]
    DefaultLocalizedErrorFunction).2.2 1 1 (by decide) (by decide) (by decide)

/-- Claim C2: for a corpus built from a training stream with p pairs and a
testing stream with q pairs, `GetTrainingSample` accepts exactly the indices
below p (rejecting every other index with an untouched result),
`GetTestingSample` accepts exactly the indices below q, and the testing sample
at index i is copied from pool position p + i; moreover training pairs occupy
the low pool indices below p (pair i coming from records 2i and 2i + 1 of the
training stream) and testing pairs the high indices p + i. -/
theorem claim_C2 (tr te : List Tensor) (c : Nat) (ns : List String)
    (ef : Nat → Nat → datum) (p q : Nat) (d : TensorStreamDataset)
    (hok : TensorStreamDataset.construct tr te c ns ef = .ok d)
    (hp : countTensors tr = 2 * p) (hq : countTensors te = 2 * q) :
    d.GetTrainingSamples = p ∧ d.GetTestingSamples = q ∧
    (∀ dt lt wt s i, p ≤ i → d.GetTrainingSample dt lt wt s i =
      { success := false, data_tensor := dt, label_tensor := lt,
        weight_tensor := wt, dataset := d }) ∧
    (∀ dt lt wt s i, i < p → d.GetTrainingSample dt lt wt s i =
      { success := (Tensor.CopySample (d.data_.getD i default) 0 dt s).1 &&
          (Tensor.CopySample (d.labels_.getD i default) 0 lt s).1 &&
          (Tensor.CopySample d.error_cache 0 wt s).1,
        data_tensor := (Tensor.CopySample (d.data_.getD i default) 0 dt s).2,
        label_tensor := (Tensor.CopySample (d.labels_.getD i default) 0 lt s).2,
        weight_tensor := (Tensor.CopySample d.error_cache 0 wt s).2,
        dataset := d }) ∧
    (∀ dt lt wt s i, q ≤ i → d.GetTestingSample dt lt wt s i =
      { success := false, data_tensor := dt, label_tensor := lt,
        weight_tensor := wt, dataset := d }) ∧
    (∀ dt lt wt s i, i < q → d.GetTestingSample dt lt wt s i =
      { success := (Tensor.CopySample (d.data_.getD (p + i) default) 0 dt s).1 &&
          (Tensor.CopySample (d.labels_.getD (p + i) default) 0 lt s).1 &&
          (Tensor.CopySample d.error_cache 0 wt s).1,
        data_tensor := (Tensor.CopySample (d.data_.getD (p + i) default) 0 dt s).2,
        label_tensor := (Tensor.CopySample (d.labels_.getD (p + i) default) 0 lt s).2,
        weight_tensor := (Tensor.CopySample d.error_cache 0 wt s).2,
        dataset := d }) ∧
    (∀ i, i < p → d.data_.getD i default = tr.getD (2 * i) default ∧
      d.labels_.getD i default = tr.getD (2 * i + 1) default) ∧
    (∀ i, i < q → d.data_.getD (p + i) default = te.getD (2 * i) default ∧
      d.labels_.getD (p + i) default = te.getD (2 * i + 1) default) := by
  obtain ⟨-, -, -, rfl⟩ := construct_ok tr te c ns ef d hok
  have hT : (buildDataset tr te c ns ef).tensor_count_training_ = countTensors tr := rfl
  have hE : (buildDataset tr te c ns ef).tensor_count_testing_ = countTensors te := rfl
  have hdT : (buildDataset tr te c ns ef).tensor_count_training_ / 2 = p := by
    rw [hT, hp]; omega
  have hdE : (buildDataset tr te c ns ef).tensor_count_testing_ / 2 = q := by
    rw [hE, hq]; omega
  have hData : (buildDataset tr te c ns ef).data_ =
      (materialize tr te (countTensors tr) (countTensors te)).1 := rfl
  have hLabels : (buildDataset tr te c ns ef).labels_ =
      (materialize tr te (countTensors tr) (countTensors te)).2 := rfl
  refine ⟨hdT, hdE, fun dt lt wt s i hi => ?_, fun dt lt wt s i hi => ?_,
    fun dt lt wt s i hi => ?_, fun dt lt wt s i hi => ?_,
    fun i hi => ?_, fun i hi => ?_⟩
  · unfold TensorStreamDataset.GetTrainingSample
    rw [hdT, if_neg (Nat.not_lt.mpr hi)]
  · unfold TensorStreamDataset.GetTrainingSample
    rw [hdT, if_pos hi]
  · unfold TensorStreamDataset.GetTestingSample
    rw [hdE, if_neg (Nat.not_lt.mpr hi)]
  · unfold TensorStreamDataset.GetTestingSample
    rw [hdE, if_pos hi]
    dsimp only
    rw [hdT]
  · constructor
    · rw [hData, materialize_data_train tr te _ _ i (by omega)]
    · rw [hLabels, materialize_labels_train tr te _ _ i (by omega)]
  · constructor
    · rw [hData, show p + i = countTensors tr / 2 + i by omega,
        materialize_data_test tr te _ _ i (by omega)]
    · rw [hLabels, show p + i = countTensors tr / 2 + i by omega,
        materialize_labels_test tr te _ _ i (by omega)]

/-- Claim C2, witness: the theorem applied to the concrete one-pair-each
corpus, with p = q = 1. -/
theorem claim_C2_witness :
    TensorStreamDataset.construct [trainData, trainLabel] [testData, testLabel] 2
      ["road", "background"] DefaultLocalizedErrorFunction = .ok dsPair ∧
    countTensors [trainData, trainLabel] = 2 * 1 ∧
    countTensors [testData, testLabel] = 2 * 1 ∧
    (dsPair.GetTrainingSamples = 1 ∧ dsPair.GetTestingSamples = 1 ∧
    (∀ dt lt wt s i, 1 ≤ i → dsPair.GetTrainingSample dt lt wt s i =
      { success := false, data_tensor := dt, label_tensor := lt,
        weight_tensor := wt, dataset := dsPair }) ∧
    (∀ dt lt wt s i, i < 1 → dsPair.GetTrainingSample dt lt wt s i =
      { success := (Tensor.CopySample (dsPair.data_.getD i default) 0 dt s).1 &&
          (Tensor.CopySample (dsPair.labels_.getD i default) 0 lt s).1 &&
          (Tensor.CopySample dsPair.error_cache 0 wt s).1,
        data_tensor := (Tensor.CopySample (dsPair.data_.getD i default) 0 dt s).2,
        label_tensor := (Tensor.CopySample (dsPair.labels_.getD i default) 0 lt s).2,
        weight_tensor := (Tensor.CopySample dsPair.error_cache 0 wt s).2,
        dataset := dsPair }) ∧
    (∀ dt lt wt s i, 1 ≤ i → dsPair.GetTestingSample dt lt wt s i =
      { success := false, data_tensor := dt, label_tensor := lt,
        weight_tensor := wt, dataset := dsPair }) ∧
    (∀ dt lt wt s i, i < 1 → dsPair.GetTestingSample dt lt wt s i =
      { success := (Tensor.CopySample (dsPair.data_.getD (1 + i) default) 0 dt s).1 &&
          (Tensor.CopySample (dsPair.labels_.getD (1 + i) default) 0 lt s).1 &&
          (Tensor.CopySample dsPair.error_cache 0 wt s).1,
        data_tensor := (Tensor.CopySample (dsPair.data_.getD (1 + i) default) 0 dt s).2,
        label_tensor := (Tensor.CopySample (dsPair.labels_.getD (1 + i) default) 0 lt s).2,
        weight_tensor := (Tensor.CopySample dsPair.error_cache 0 wt s).2,
        dataset := dsPair }) ∧
    (∀ i, i < 1 → dsPair.data_.getD i default = [trainData, trainLabel].getD (2 * i) default ∧
      dsPair.labels_.getD i default = [trainData, trainLabel].getD (2 * i + 1) default) ∧
    (∀ i, i < 1 → dsPair.data_.getD (1 + i) default = [testData, testLabel].getD (2 * i) default ∧
      dsPair.labels_.getD (1 + i) default = [testData, testLabel].getD (2 * i + 1) default)) := by
  refine ⟨rfl, by decide, by decide, ?_⟩
  exact claim_C2 [trainData, trainLabel] [testData, testLabel] 2 ["road", "background"]
    DefaultLocalizedErrorFunction 1 1 dsPair rfl (by decide) (by decide)

/-- Claim C3, evaluated at the failing input: with both streams containing
zero records, construction does not succeed within bounds — the reads of the
first data tensor during construction index the zero-length pool, which the
embedding reports as the out-of-bounds construction error. -/
theorem claim_C3_empty_pool :
    TensorStreamDataset.construct [] [] 0 [] DefaultLocalizedErrorFunction =
      Except.error ConstructError.outOfBounds ∧
    countTensors ([] : List Tensor) = 0 := ⟨rfl, rfl⟩

/-- Claim C4, counterexample: the name "default" given to a `localized_error`
directive does not always select the default weighting function. In a
configuration whose directives name "kitti" and then "default", the selection
ends on the KITTI function: the inverted `compare("default")` check fires only
for names other than "default", so a literal "default" leaves the previous
selection in place. -/
theorem claim_C4_counterexample :
    configuredErrorFunction ["kitti", "default"] = LocalizedErrorFunctionTag.kittiFn ∧
    LocalizedErrorFunctionTag.kittiFn ≠ LocalizedErrorFunctionTag.defaultFn := by
  constructor
  · rfl
  · intro h
    exact LocalizedErrorFunctionTag.noConfusion h

/-- Claim C4 (amended): one `localized_error` directive updates the selection
as follows — the name "kitti" selects the KITTI coordinate-weighting function,
any name other than "kitti" and "default" selects the default uniform
weighting, and the name "default" leaves the current selection unchanged;
consequently, starting from the initial default selection, a single directive
selects KITTI exactly for "kitti" and the default for every other name. -/
theorem claim_C4 :
    (∀ ef name, applyLocalizedErrorDirective ef name =
      if name = "kitti" then .kittiFn
      else if name = "default" then ef
      else .defaultFn) ∧
    (∀ name, configuredErrorFunction [name] =
      if name = "kitti" then .kittiFn else .defaultFn) := by
  constructor
  · intro ef name
    unfold applyLocalizedErrorDirective
    by_cases h1 : name = "kitti"
    · rw [if_pos h1, if_pos h1]
    · rw [if_neg h1, if_neg h1]
      by_cases h2 : name = "default"
      · rw [if_neg (by simpa using h2), if_pos h2]
      · rw [if_pos h2, if_neg h2]
  · intro name
    show applyLocalizedErrorDirective .defaultFn name = _
    unfold applyLocalizedErrorDirective
    by_cases h1 : name = "kitti"
    · rw [if_pos h1, if_pos h1]
    · rw [if_neg h1, if_neg h1]
      by_cases h2 : name = "default"
      · rw [if_neg (by simpa using h2)]
      · rw [if_pos h2]

/-- Claim C5: after construction the error-weight cache is a single-sample,
single-channel tensor whose spatial extent equals the width and height of the
first data tensor, every coordinate (x, y) within that extent holds
`error_function x y`, and with the default error function every cell equals
1. -/
theorem claim_C5 (tr te : List Tensor) (c : Nat) (ns : List String)
    (ef : Nat → Nat → datum) (d : TensorStreamDataset)
    (hok : TensorStreamDataset.construct tr te c ns ef = .ok d) :
    d.error_cache.samples = 1 ∧ d.error_cache.maps = 1 ∧
    d.error_cache.width = (d.data_.getD 0 default).width ∧
    d.error_cache.height = (d.data_.getD 0 default).height ∧
    (∀ x y, x < d.error_cache.width → y < d.error_cache.height →
      d.error_cache.cellAt x y = ef x y) ∧
    (ef = DefaultLocalizedErrorFunction →
      ∀ x y, x < d.error_cache.width → y < d.error_cache.height →
        d.error_cache.cellAt x y = 1) := by
  obtain ⟨-, -, -, rfl⟩ := construct_ok tr te c ns ef d hok
  have hcache : (buildDataset tr te c ns ef).error_cache =
      buildErrorCache ((buildDataset tr te c ns ef).data_.getD 0 default) ef := rfl
  set d0 := (buildDataset tr te c ns ef).data_.getD 0 default with hd0
  have hcell : ∀ x y, x < d0.width → y < d0.height →
      (buildErrorCache d0 ef).cellAt x y = ef x y := by
    intro x y hx hy
    unfold Tensor.cellAt buildErrorCache
    dsimp only
    exact errorCacheRows_getD d0.width ef d0.height y x hy hx
  refine ⟨by rw [hcache]; rfl, by rw [hcache]; rfl, by rw [hcache]; rfl,
    by rw [hcache]; rfl, ?_, ?_⟩
  · intro x y hx hy
    rw [hcache] at hx hy ⊢
    exact hcell x y hx hy
  · intro hef x y hx hy
    rw [hcache] at hx hy ⊢
    rw [hcell x y hx hy, hef]
    rfl

/-- Claim C5, witness: the theorem applied to the concrete one-pair-each
corpus built with the default error function. -/
theorem claim_C5_witness :
    TensorStreamDataset.construct [trainData, trainLabel] [testData, testLabel] 2
      ["road", "background"] DefaultLocalizedErrorFunction = .ok dsPair ∧
    (dsPair.error_cache.samples = 1 ∧ dsPair.error_cache.maps = 1 ∧
    dsPair.error_cache.width = (dsPair.data_.getD 0 default).width ∧
    dsPair.error_cache.height = (dsPair.data_.getD 0 default).height ∧
    (∀ x y, x < dsPair.error_cache.width → y < dsPair.error_cache.height →
      dsPair.error_cache.cellAt x y = DefaultLocalizedErrorFunction x y) ∧
    (DefaultLocalizedErrorFunction = DefaultLocalizedErrorFunction →
      ∀ x y, x < dsPair.error_cache.width → y < dsPair.error_cache.height →
        dsPair.error_cache.cellAt x y = 1)) := by
  refine ⟨rfl, ?_⟩
  exact claim_C5 [trainData, trainLabel] [testData, testLabel] 2 ["road", "background"]
    DefaultLocalizedErrorFunction dsPair rfl

lemma unchangedOutsideSlot_refl (t : Tensor) (s : Nat) : unchangedOutsideSlot t t s :=
  ⟨rfl, rfl, rfl, rfl, fun _ _ => rfl⟩

/-- Claim C6: `GetTrainingSample` with an index at or past the training pair
count (in particular one past the last valid index) returns failure and
performs no write at all — the three destination tensors and the corpus come
back exactly as they went in. -/
theorem claim_C6 (d : TensorStreamDataset) (dt lt wt : Tensor) (s i : Nat)
    (h : d.GetTrainingSamples ≤ i) :
    d.GetTrainingSample dt lt wt s i =
      { success := false, data_tensor := dt, label_tensor := lt,
        weight_tensor := wt, dataset := d } := by
  simp only [TensorStreamDataset.GetTrainingSamples] at h
  unfold TensorStreamDataset.GetTrainingSample
  rw [if_neg (Nat.not_lt.mpr h)]

/-- Claim C6, witness: the theorem applied to the concrete corpus with one
training pair, at index 1 (one past the last valid index 0). -/
theorem claim_C6_witness :
    dsPair.GetTrainingSamples ≤ 1 ∧
    dsPair.GetTrainingSample destData destLabel destWeight 0 1 =
      { success := false, data_tensor := destData, label_tensor := destLabel,
        weight_tensor := destWeight, dataset := dsPair } :=
  ⟨by decide, claim_C6 dsPair destData destLabel destWeight 0 1 (by decide)⟩

/-- Claim C7: a corpus constructed with zero testing records reports
`SupportsTesting` false, and `GetTestingSample` returns failure, destinations
untouched, for every index. -/
theorem claim_C7 (tr te : List Tensor) (c : Nat) (ns : List String)
    (ef : Nat → Nat → datum) (d : TensorStreamDataset)
    (hok : TensorStreamDataset.construct tr te c ns ef = .ok d)
    (hte : countTensors te = 0) :
    d.SupportsTesting = false ∧
    ∀ dt lt wt s i, d.GetTestingSample dt lt wt s i =
      { success := false, data_tensor := dt, label_tensor := lt,
        weight_tensor := wt, dataset := d } := by
  obtain ⟨-, -, -, rfl⟩ := construct_ok tr te c ns ef d hok
  have hE : (buildDataset tr te c ns ef).tensor_count_testing_ = countTensors te := rfl
  constructor
  · unfold TensorStreamDataset.SupportsTesting
    rw [hE, hte]
    rfl
  · intro dt lt wt s i
    unfold TensorStreamDataset.GetTestingSample
    rw [hE, hte, if_neg (by omega)]

/-- Claim C7, witness: the theorem applied to the concrete corpus built from
one training pair and an empty testing stream. -/
theorem claim_C7_witness :
    TensorStreamDataset.construct [trainData, trainLabel] [] 2 ["road", "background"]
      DefaultLocalizedErrorFunction = .ok dsTrainOnly ∧
    countTensors ([] : List Tensor) = 0 ∧
    (dsTrainOnly.SupportsTesting = false ∧
    ∀ dt lt wt s i, dsTrainOnly.GetTestingSample dt lt wt s i =
      { success := false, data_tensor := dt, label_tensor := lt,
        weight_tensor := wt, dataset := dsTrainOnly }) := by
  refine ⟨rfl, rfl, ?_⟩
  exact claim_C7 [trainData, trainLabel] [] 2 ["road", "background"]
    DefaultLocalizedErrorFunction dsTrainOnly rfl rfl

/-- Claim C8: every retrieval, training or testing, at any valid index, copies
the one shared weight tensor — the error cache — into the destination: the
weight output of both accessors is the same copy-of-the-cache expression,
independent of the sample index, and no call alters the cache held by the
corpus, so its contents are identical no matter how many calls are made. -/
theorem claim_C8 (d : TensorStreamDataset) (dt lt wt : Tensor) (s i j : Nat)
    (hi : i < d.GetTrainingSamples) (hj : j < d.GetTestingSamples) :
    (d.GetTrainingSample dt lt wt s i).weight_tensor =
      (Tensor.CopySample d.error_cache 0 wt s).2 ∧
    (d.GetTestingSample dt lt wt s j).weight_tensor =
      (Tensor.CopySample d.error_cache 0 wt s).2 ∧
    (d.GetTrainingSample dt lt wt s i).dataset.error_cache = d.error_cache ∧
    (d.GetTestingSample dt lt wt s j).dataset.error_cache = d.error_cache := by
  simp only [TensorStreamDataset.GetTrainingSamples] at hi
  simp only [TensorStreamDataset.GetTestingSamples] at hj
  unfold TensorStreamDataset.GetTrainingSample TensorStreamDataset.GetTestingSample
  rw [if_pos hi, if_pos hj]
  exact ⟨rfl, rfl, rfl, rfl⟩

/-- Claim C8, witness: the theorem applied to the concrete one-pair-each
corpus at training index 0 and testing index 0. -/
theorem claim_C8_witness :
    0 < dsPair.GetTrainingSamples ∧ 0 < dsPair.GetTestingSamples ∧
    ((dsPair.GetTrainingSample destData destLabel destWeight 0 0).weight_tensor =
      (Tensor.CopySample dsPair.error_cache 0 destWeight 0).2 ∧
    (dsPair.GetTestingSample destData destLabel destWeight 0 0).weight_tensor =
      (Tensor.CopySample dsPair.error_cache 0 destWeight 0).2 ∧
    (dsPair.GetTrainingSample destData destLabel destWeight 0 0).dataset.error_cache =
      dsPair.error_cache ∧
    (dsPair.GetTestingSample destData destLabel destWeight 0 0).dataset.error_cache =
      dsPair.error_cache) :=
  ⟨by decide, by decide,
    claim_C8 dsPair destData destLabel destWeight 0 0 0 (by decide) (by decide)⟩

/-- Claim C9: the accessors mutate only the caller-owned destination tensors
at the given slot and never the corpus — after any call, successful or failed,
the corpus (pool, counts, class metadata, error cache) is the receiver
unchanged, and each destination keeps its shape and every sample slot other
than the requested one. -/
theorem claim_C9 (d : TensorStreamDataset) (dt lt wt : Tensor) (s i : Nat) :
    (d.GetTrainingSample dt lt wt s i).dataset = d ∧
    (d.GetTestingSample dt lt wt s i).dataset = d ∧
    unchangedOutsideSlot dt (d.GetTrainingSample dt lt wt s i).data_tensor s ∧
    unchangedOutsideSlot lt (d.GetTrainingSample dt lt wt s i).label_tensor s ∧
    unchangedOutsideSlot wt (d.GetTrainingSample dt lt wt s i).weight_tensor s ∧
    unchangedOutsideSlot dt (d.GetTestingSample dt lt wt s i).data_tensor s ∧
    unchangedOutsideSlot lt (d.GetTestingSample dt lt wt s i).label_tensor s ∧
    unchangedOutsideSlot wt (d.GetTestingSample dt lt wt s i).weight_tensor s := by
  unfold TensorStreamDataset.GetTrainingSample TensorStreamDataset.GetTestingSample
  refine ⟨?_, ?_, ?_, ?_, ?_, ?_, ?_, ?_⟩ <;> split
  · rfl
  · rfl
  · rfl
  · rfl
  · exact CopySample_frame _ 0 dt s
  · exact unchangedOutsideSlot_refl dt s
  · exact CopySample_frame _ 0 lt s
  · exact unchangedOutsideSlot_refl lt s
  · exact CopySample_frame _ 0 wt s
  · exact unchangedOutsideSlot_refl wt s
  · exact CopySample_frame _ 0 dt s
  · exact unchangedOutsideSlot_refl dt s
  · exact CopySample_frame _ 0 lt s
  · exact unchangedOutsideSlot_refl lt s
  · exact CopySample_frame _ 0 wt s
  · exact unchangedOutsideSlot_refl wt s

/-- Claim C9, witness: the theorem applied to the concrete one-pair-each
corpus and the two-slot destination buffers at slot 0. -/
theorem claim_C9_witness :
    (dsPair.GetTrainingSample destData destLabel destWeight 0 0).dataset = dsPair ∧
    (dsPair.GetTestingSample destData destLabel destWeight 0 0).dataset = dsPair ∧
    unchangedOutsideSlot destData
      (dsPair.GetTrainingSample destData destLabel destWeight 0 0).data_tensor 0 ∧
    unchangedOutsideSlot destLabel
      (dsPair.GetTrainingSample destData destLabel destWeight 0 0).label_tensor 0 ∧
    unchangedOutsideSlot destWeight
      (dsPair.GetTrainingSample destData destLabel destWeight 0 0).weight_tensor 0 ∧
    unchangedOutsideSlot destData
      (dsPair.GetTestingSample destData destLabel destWeight 0 0).data_tensor 0 ∧
    unchangedOutsideSlot destLabel
      (dsPair.GetTestingSample destData destLabel destWeight 0 0).label_tensor 0 ∧
    unchangedOutsideSlot destWeight
      (dsPair.GetTestingSample destData destLabel destWeight 0 0).weight_tensor 0 :=
  claim_C9 dsPair destData destLabel destWeight 0 0

/-- Claim C10: with an in-range index the three copies are attempted
independently — each returned destination equals the result of its own copy
regardless of the other copies — and the returned flag is the conjunction of
the three copy results; consequently a failed return can leave the
destinations partially written, as the concrete call shows: its data copy
fails (shape mismatch) yet the label and weight destinations are written. -/
theorem claim_C10 (d : TensorStreamDataset) (dt lt wt : Tensor) (s i j : Nat)
    (hi : i < d.GetTrainingSamples) (hj : j < d.GetTestingSamples) :
    ((d.GetTrainingSample dt lt wt s i).success =
      ((Tensor.CopySample (d.data_.getD i default) 0 dt s).1 &&
       (Tensor.CopySample (d.labels_.getD i default) 0 lt s).1 &&
       (Tensor.CopySample d.error_cache 0 wt s).1) ∧
     (d.GetTrainingSample dt lt wt s i).data_tensor =
       (Tensor.CopySample (d.data_.getD i default) 0 dt s).2 ∧
     (d.GetTrainingSample dt lt wt s i).label_tensor =
       (Tensor.CopySample (d.labels_.getD i default) 0 lt s).2 ∧
     (d.GetTrainingSample dt lt wt s i).weight_tensor =
       (Tensor.CopySample d.error_cache 0 wt s).2) ∧
    ((d.GetTestingSample dt lt wt s j).success =
      ((Tensor.CopySample (d.data_.getD (d.GetTrainingSamples + j) default) 0 dt s).1 &&
       (Tensor.CopySample (d.labels_.getD (d.GetTrainingSamples + j) default) 0 lt s).1 &&
       (Tensor.CopySample d.error_cache 0 wt s).1) ∧
     (d.GetTestingSample dt lt wt s j).data_tensor =
       (Tensor.CopySample (d.data_.getD (d.GetTrainingSamples + j) default) 0 dt s).2 ∧
     (d.GetTestingSample dt lt wt s j).label_tensor =
       (Tensor.CopySample (d.labels_.getD (d.GetTrainingSamples + j) default) 0 lt s).2 ∧
     (d.GetTestingSample dt lt wt s j).weight_tensor =
       (Tensor.CopySample d.error_cache 0 wt s).2) ∧
    ((dsPair.GetTrainingSample destMismatched destLabel destWeight 0 0).success = false ∧
     (dsPair.GetTrainingSample destMismatched destLabel destWeight 0 0).label_tensor ≠
       destLabel ∧
     (dsPair.GetTrainingSample destMismatched destLabel destWeight 0 0).weight_tensor ≠
       destWeight) := by
  simp only [TensorStreamDataset.GetTrainingSamples] at hi
  simp only [TensorStreamDataset.GetTestingSamples] at hj
  refine ⟨?_, ?_, by decide⟩
  · unfold TensorStreamDataset.GetTrainingSample
    rw [if_pos hi]
    exact ⟨rfl, rfl, rfl, rfl⟩
  · unfold TensorStreamDataset.GetTestingSample
    rw [if_pos hj]
    exact ⟨rfl, rfl, rfl, rfl⟩

/-- Claim C10, witness: the theorem applied to the concrete one-pair-each
corpus at training index 0 and testing index 0. -/
theorem claim_C10_witness :
    0 < dsPair.GetTrainingSamples ∧ 0 < dsPair.GetTestingSamples ∧
    (((dsPair.GetTrainingSample destData destLabel destWeight 0 0).success =
      ((Tensor.CopySample (dsPair.data_.getD 0 default) 0 destData 0).1 &&
       (Tensor.CopySample (dsPair.labels_.getD 0 default) 0 destLabel 0).1 &&
       (Tensor.CopySample dsPair.error_cache 0 destWeight 0).1) ∧
     (dsPair.GetTrainingSample destData destLabel destWeight 0 0).data_tensor =
       (Tensor.CopySample (dsPair.data_.getD 0 default) 0 destData 0).2 ∧
     (dsPair.GetTrainingSample destData destLabel destWeight 0 0).label_tensor =
       (Tensor.CopySample (dsPair.labels_.getD 0 default) 0 destLabel 0).2 ∧
     (dsPair.GetTrainingSample destData destLabel destWeight 0 0).weight_tensor =
       (Tensor.CopySample dsPair.error_cache 0 destWeight 0).2) ∧
    (((dsPair.GetTestingSample destData destLabel destWeight 0 0).success =
      ((Tensor.CopySample (dsPair.data_.getD (dsPair.GetTrainingSamples + 0) default) 0 destData 0).1 &&
       (Tensor.CopySample (dsPair.labels_.getD (dsPair.GetTrainingSamples + 0) default) 0 destLabel 0).1 &&
       (Tensor.CopySample dsPair.error_cache 0 destWeight 0).1) ∧
     (dsPair.GetTestingSample destData destLabel destWeight 0 0).data_tensor =
       (Tensor.CopySample (dsPair.data_.getD (dsPair.GetTrainingSamples + 0) default) 0 destData 0).2 ∧
     (dsPair.GetTestingSample destData destLabel destWeight 0 0).label_tensor =
       (Tensor.CopySample (dsPair.labels_.getD (dsPair.GetTrainingSamples + 0) default) 0 destLabel 0).2 ∧
     (dsPair.GetTestingSample destData destLabel destWeight 0 0).weight_tensor =
       (Tensor.CopySample dsPair.error_cache 0 destWeight 0).2) ∧
    ((dsPair.GetTrainingSample destMismatched destLabel destWeight 0 0).success = false ∧
     (dsPair.GetTrainingSample destMismatched destLabel destWeight 0 0).label_tensor ≠
       destLabel ∧
     (dsPair.GetTrainingSample destMismatched destLabel destWeight 0 0).weight_tensor ≠
       destWeight))) :=
  ⟨by decide, by decide,
    claim_C10 dsPair destData destLabel destWeight 0 0 0 (by decide) (by decide)⟩
